import Mathlib

/-!
Verification development for the knowledge-graph construction and lineage
engine of the repository.  The definitions below are a shallow embedding of
the Python sources:

* `createNode` / `createRelationship` embed
  `app/knowledge_graph/services/graph_connector.py` (`GraphConnector.create_node`,
  `GraphConnector.create_relationship`): merge-key selection, the Cypher
  `MERGE ... ON CREATE SET ... ON MATCH SET n.updated_at` discipline, and the
  relationship-type splicing (`rel_type.split('.')[-1]`).
* `buildDetailedDataVaultWithCache` embeds
  `GraphBuilder.build_detailed_data_vault_with_cache`
  (`app/knowledge_graph/services/graph_builder.py`, lines 855-1257), including
  the node cache, the per-column loop, and the read of the Python local
  variable `source` before its first assignment (modelled by the
  `sourceVar : Option (Option SourceDesc)` loop argument, `none` = unbound).
* `processFilesAux` embeds the per-file loop of
  `build_multiple_data_vault_from_yaml_files`
  (`app/knowledge_graph/api/yaml_endpoints.py`, lines 235-318): the shared
  node cache, the required-field precheck and the per-file try/except that
  appends to the `errors` list keyed by filename.
* `buildSourceMetadataEnhanced` embeds
  `GraphBuilder.build_source_metadata_graph_enhanced` (lines 268-513) with the
  per-table foreign-key pass.
* `get_source_to_target_lineage` / `get_target_to_source_lineage` embed
  `app/services/data_vault_store.py` (lines 457-521).

Machine timestamps (`datetime.utcnow()` at pydantic model construction) are
modelled by a monotone `clock : Nat` threaded through the builders; the only
observable fact used is that two distinct constructions get distinct values.
-/

/-- Property values stored on nodes and relationships (string, integer and
boolean properties are the only shapes the embedded call sites produce;
timestamps are the `n` case). -/
inductive Val where
  | s (v : String)
  | n (v : Nat)
  | b (v : Bool)
deriving DecidableEq, Repr

/-- A property bag, as Neo4j sees it: a finite key-value map.  The embedded
call sites never produce duplicate keys, and `lookupProp`/`setProp` give the
map semantics of a Python dict. -/
abbrev Props := List (String × Val)

def lookupProp (ps : Props) (k : String) : Option Val :=
  match ps with
  | [] => none
  | (k', v) :: rest => if k' = k then some v else lookupProp rest k

def setProp (ps : Props) (k : String) (v : Val) : Props :=
  match ps with
  | [] => [(k, v)]
  | (k', v') :: rest => if k' = k then (k, v) :: rest else (k', v') :: setProp rest k v

def hasProp (ps : Props) (k : String) : Bool :=
  (lookupProp ps k).isSome

/-- A graph node: Neo4j-internal id, the single label the connector attaches
(`labels = [node.node_type]`) and its property bag. -/
structure GNode where
  nid : Nat
  label : String
  props : Props
deriving DecidableEq, Repr

/-- A graph relationship: id, type, endpoint node ids, property bag. -/
structure GRel where
  rid : Nat
  rtype : String
  src : Nat
  tgt : Nat
  props : Props
deriving DecidableEq, Repr

/-- The state of the Neo4j store: an id counter, a clock supplying
`datetime.utcnow()` values, and the node/relationship sets. -/
structure GraphState where
  nextId : Nat := 0
  clock : Nat := 0
  nodes : List GNode := []
  rels : List GRel := []
deriving DecidableEq, Repr

def keyProps (ps : Props) (ks : List String) : Props :=
  ks.filterMap (fun k => (lookupProp ps k).map (fun v => (k, v)))

/-- Embeds `GraphConnector.create_node`, lines 117-136: the merge-key properties are
chosen by node type; types other than the five listed ones fall through to
"use all properties". -/
def mergePropsFor (nodeType : String) (props : Props) : Props :=
  if nodeType = "SourceSystem" && hasProp props "name" then
    keyProps props ["name"]
  else if nodeType = "Schema" && hasProp props "name" && hasProp props "source_system" then
    keyProps props ["name", "source_system"]
  else if nodeType = "Table" && hasProp props "name" && hasProp props "schema" then
    keyProps props ["name", "schema"]
  else if nodeType = "Column" && hasProp props "name" && hasProp props "table" && hasProp props "schema" then
    keyProps props ["name", "table", "schema"]
  else if nodeType = "DataVaultComponent" && hasProp props "name" then
    keyProps props ["name"]
  else
    props

/-- Lines 140-143: `updated_at` is removed from the merge-key copy. -/
def mergeKeyOf (nodeType : String) (props : Props) : Props :=
  (mergePropsFor nodeType props).filter (fun kv => kv.1 ≠ "updated_at")

/-- Matching discipline of `MERGE (n:Label ...)`: it matches a node carrying the label whose
properties agree with every merge-key pair. -/
def nodeMatches (label : String) (mps : Props) (nd : GNode) : Bool :=
  nd.label == label && mps.all (fun kv => lookupProp nd.props kv.1 == some kv.2)

def findMergeMatch (nodeType : String) (props : Props) (g : GraphState) : Option GNode :=
  g.nodes.find? (nodeMatches nodeType (mergeKeyOf nodeType props))

/-- Embeds `ON MATCH SET n.updated_at = $updated_at`. -/
def refreshUpdatedAt (old new : Props) : Props :=
  match lookupProp new "updated_at" with
  | some v => setProp old "updated_at" v
  | none => old

/-- Embeds `GraphConnector.create_node`, lines 145-155 (the `MERGE` query):
on match only `updated_at` is refreshed and the matched id is returned;
on create a fresh node is created carrying all supplied properties
(`ON CREATE SET n += $all_props`). -/
def createNode (nodeType : String) (props : Props) (g : GraphState) : Nat × GraphState :=
  match findMergeMatch nodeType props g with
  | some nd =>
      (nd.nid,
       { g with nodes := g.nodes.map (fun m =>
           if m.nid = nd.nid then { m with props := refreshUpdatedAt m.props props } else m) })
  | none =>
      (g.nextId,
       { g with
           nextId := g.nextId + 1
           nodes := g.nodes ++ [{ nid := g.nextId, label := nodeType, props := props }] })

/-- The characters after the last `'.'` (`rel_type.split('.')[-1]`). -/
def lastDotSegmentAux (cs : List Char) (cur : List Char) : List Char :=
  match cs with
  | [] => cur
  | c :: rest => if c = '.' then lastDotSegmentAux rest [] else lastDotSegmentAux rest (cur ++ [c])

/-- Embeds `GraphConnector.create_relationship`, lines 194-207: the enum value is
taken, and when the string contains a dot only the part after the last dot is
spliced into the query text.  No allow-list validation happens before the
splice. -/
def spliceRelType (rt : String) : String :=
  if rt.data.any (fun c => c = '.') then ⟨lastDotSegmentAux rt.data []⟩ else rt

/-- The relationship types of `RelationshipType`
(`app/knowledge_graph/models/relationship_models.py`): the only fixed
enumeration of relationship types in the code base. -/
def relTypeAllowList : List String :=
  ["CONTAINS", "MAPPED_TO", "REFERENCES", "SOURCE_OF", "DERIVED_FROM", "PART_OF", "TRANSFORMS_TO"]

/-- Line 243: the hard-coded type used by the error-handler retry after a
Neo4j syntax error mentioning an invalid dot. -/
def fallbackRelType : String := "CONTAINS"

/-- Embeds `GraphConnector.create_relationship`, lines 218-236:
`MERGE (source)-[r:TYPE]->(target)` keyed on (type, source id, target id);
`ON CREATE SET r += $props`, `ON MATCH SET r.updated_at = $updated_at`.
The embedded call sites always pass ids of nodes present in the store, so the
"no row returned" failure branch of the Python code is not reachable here. -/
def createRelationship (rt : String) (srcId tgtId : Nat) (props : Props) (g : GraphState) :
    Nat × GraphState :=
  let t := spliceRelType rt
  match g.rels.find? (fun r => r.rtype == t && r.src == srcId && r.tgt == tgtId) with
  | some r =>
      (r.rid,
       { g with rels := g.rels.map (fun x =>
           if x.rid = r.rid then { x with props := refreshUpdatedAt x.props props } else x) })
  | none =>
      let r : GRel := { rid := g.nextId, rtype := t, src := srcId, tgt := tgtId, props := props }
      (r.rid, { g with nextId := g.nextId + 1, rels := g.rels ++ [r] })

def countLabel (g : GraphState) (l : String) : Nat :=
  (g.nodes.filter (fun nd => nd.label == l)).length

def countLabelName (g : GraphState) (l n : String) : Nat :=
  (g.nodes.filter (fun nd => nd.label == l && lookupProp nd.props "name" == some (Val.s n))).length

def countRelType (g : GraphState) (t : String) : Nat :=
  (g.rels.filter (fun r => r.rtype == t)).length

/-! ### Data Vault declarations (parsed YAML content, §6 of the spec) -/

/-- An entry of a YAML list that is either a string or something else
(non-string entries are filtered out by the source-descriptor handling). -/
inductive YamlItem where
  | str (s : String)
  | nonstr
deriving DecidableEq, Repr

/-- The `source` descriptor of a column mapping: a bare string, a list, or an
object; object fields model key presence in the YAML mapping. -/
inductive SourceDesc where
  | str (s : String)
  | list (items : List YamlItem)
  | obj (name? : Option String) (dtype? : Option String) (descr? : Option String)
deriving DecidableEq, Repr

/-- One entry of the `columns` list; `Option` models key presence
(`'target' in column`, `column.get('dtype', 'VARCHAR')`, ...). -/
structure ColumnMapping where
  target : Option String := none
  dtype : Option String := none
  key_type : Option String := none
  description : Option String := none
  source : Option SourceDesc := none
deriving DecidableEq, Repr

/-- A parsed Data Vault declaration (`yaml.safe_load` output restricted to the
keys the builder reads). -/
structure Decl where
  source_schema : Option String := none
  source_table : Option String := none
  target_schema : Option String := none
  target_table : Option String := none
  target_entity_type : Option String := none
  collision_code : Option String := none
  description : Option String := none
  columns : List ColumnMapping := []
deriving DecidableEq, Repr

/-- Python truthiness of an optional string (`None` and `""` are falsy). -/
def truthy : Option String → Bool
  | none => false
  | some s => !s.isEmpty

/-- Line 902: `not all([source_schema, source_table, target_schema, target_table])`. -/
def truthyCoords (d : Decl) : Bool :=
  truthy d.source_schema && truthy d.source_table && truthy d.target_schema && truthy d.target_table

/-- Lines 1123-1133 (identically 1457-1467 in `build_detailed_data_vault`):
normalization of the `source` descriptor into the list of source column
names: a bare string becomes a singleton, a list keeps its string entries,
an object contributes its `name` field. -/
def normalizeSource (src : Option SourceDesc) : List String :=
  match src with
  | some (.str s) => [s]
  | some (.list items) =>
      items.filterMap (fun it => match it with | .str s => some s | .nonstr => none)
  | some (.obj (some n) _ _) => [n]
  | _ => []

/-! ### Node property assembly at the builder call sites

Each helper mirrors one pydantic node construction plus the property
assembly of `create_node` (non-`None` model fields, then the timestamps).
`t` is the `datetime.utcnow()` value taken at model construction. -/

def sourceSystemProps (name descr : String) (t : Nat) : Props :=
  [("name", .s name), ("node_type", .s "SourceSystem"), ("description", .s descr),
   ("created_at", .n t), ("updated_at", .n t)]

def sourceSchemaProps (name sourceSystem : String) (t : Nat) : Props :=
  [("name", .s name), ("node_type", .s "SourceSchema"), ("source_system", .s sourceSystem),
   ("created_at", .n t), ("updated_at", .n t)]

def targetSchemaProps (name : String) (t : Nat) : Props :=
  [("name", .s name), ("node_type", .s "TargetSchema"),
   ("created_at", .n t), ("updated_at", .n t)]

def sourceTableProps (name schema : String) (descr : Option String) (t : Nat) : Props :=
  [("name", .s name), ("node_type", .s "SourceTable"), ("schema", .s schema)]
  ++ (match descr with | some d => [("description", Val.s d)] | none => [])
  ++ [("created_at", .n t), ("updated_at", .n t)]

def targetTableProps (name schema descr entity : String) (collision : Option String) (t : Nat) :
    Props :=
  [("name", .s name), ("node_type", .s "TargetTable"), ("schema", .s schema),
   ("description", .s descr), ("entity_type", .s entity)]
  ++ (match collision with | some cc => [("collision_code", Val.s cc)] | none => [])
  ++ [("created_at", .n t), ("updated_at", .n t)]

/-- Properties of `SourceColumnNode`: `nullable` defaults to `True` and is always present;
`description` is present only when supplied (the plain branch passes none,
the object branch passes `source.get('description', '')`). -/
def sourceColumnProps (name table schema dtype : String) (descr : Option String) (t : Nat) :
    Props :=
  [("name", .s name), ("node_type", .s "SourceColumn"), ("table", .s table),
   ("schema", .s schema), ("data_type", .s dtype)]
  ++ (match descr with | some d => [("description", Val.s d)] | none => [])
  ++ [("nullable", .b true), ("created_at", .n t), ("updated_at", .n t)]

def targetColumnProps (name table schema dtype : String) (keyType : Option String)
    (descr : String) (t : Nat) : Props :=
  [("name", .s name), ("node_type", .s "TargetColumn"), ("table", .s table),
   ("schema", .s schema), ("data_type", .s dtype), ("description", .s descr)]
  ++ (match keyType with | some kt => [("key_type", Val.s kt)] | none => [])
  ++ [("nullable", .b true), ("created_at", .n t), ("updated_at", .n t)]

/-- Relationship property assembly: the base-model fields are all excluded,
leaving the custom `properties` entries plus the timestamps. -/
def relationshipProps (custom : Props) (t : Nat) : Props :=
  custom ++ [("created_at", .n t), ("updated_at", .n t)]

/-! ### The per-batch node cache and builder state -/

/-- The per-batch node cache (`node_cache` dict of dicts, lines 870-879). -/
structure NodeCache where
  source_schemas : List (String × Nat) := []
  target_schemas : List (String × Nat) := []
  source_tables : List (String × Nat) := []
  target_tables : List (String × Nat) := []
  source_columns : List (String × Nat) := []
  target_columns : List (String × Nat) := []
deriving DecidableEq, Repr

def cacheGet (m : List (String × Nat)) (k : String) : Option Nat :=
  (m.find? (fun kv => kv.1 == k)).map (·.2)

def cacheSet (m : List (String × Nat)) (k : String) (v : Nat) : List (String × Nat) :=
  match m with
  | [] => [(k, v)]
  | (k', v') :: rest => if k' = k then (k, v) :: rest else (k', v') :: cacheSet rest k v

/-- Cache plus store, the state shared across declarations of one batch. -/
structure BState where
  cache : NodeCache := {}
  g : GraphState := {}
deriving DecidableEq, Repr

/-- The `results` dict of one builder call: node entries `{id, name, type}`
and relationship entries `{id, type, source, target}`. -/
structure RNode where
  id : Nat
  name : String
  ntype : String
deriving DecidableEq, Repr

structure RRel where
  id : Nat
  rtype : String
  source : String
  target : String
deriving DecidableEq, Repr

structure BuildResults where
  nodes : List RNode := []
  rels : List RRel := []
deriving DecidableEq, Repr

/-- Full working state of one builder invocation: shared cache and store plus
the per-call `results`. -/
structure Ctx where
  cache : NodeCache := {}
  g : GraphState := {}
  res : BuildResults := {}
deriving DecidableEq, Repr

/-- Construct a pydantic node model (taking the current clock value as its
timestamps) and pass it to `create_node`. -/
def upsertNode (label : String) (mk : Nat → Props) (c : Ctx) : Nat × Ctx :=
  let t := c.g.clock
  let r := createNode label (mk t) { c.g with clock := t + 1 }
  (r.1, { c with g := r.2 })

/-- Construct a relationship model and pass it to `create_relationship`. -/
def upsertRel (rt : String) (srcId tgtId : Nat) (custom : Props) (c : Ctx) : Nat × Ctx :=
  let t := c.g.clock
  let r := createRelationship rt srcId tgtId (relationshipProps custom t) { c.g with clock := t + 1 }
  (r.1, { c with g := r.2 })

/-- Errors a builder call can raise past its own boundary. -/
inductive BErr where
  | missingFields
  | unboundLocalSource
deriving DecidableEq, Repr

/-- Ids of the four coordinate nodes plus the threaded state. -/
structure SetupOut where
  ssId : Nat
  tsId : Nat
  stId : Nat
  ttId : Nat
  ctx : Ctx
deriving DecidableEq, Repr

/-- Lines 914-934: the source schema node, consulting the cache first. -/
def stepSourceSchema (sys sschema : String) (c : Ctx) : Nat × Ctx :=
  match cacheGet c.cache.source_schemas sschema with
  | some i => (i, c)
  | none =>
      let r := upsertNode "SourceSchema" (sourceSchemaProps sschema sys) c
      let c := { r.2 with
        cache := { r.2.cache with source_schemas := cacheSet r.2.cache.source_schemas sschema r.1 },
        res := { r.2.res with nodes := r.2.res.nodes ++ [({ id := r.1, name := sschema, ntype := "SourceSchema" } : RNode)] } }
      (r.1, c)

/-- Lines 936-955: the target schema node. -/
def stepTargetSchema (tschema : String) (c : Ctx) : Nat × Ctx :=
  match cacheGet c.cache.target_schemas tschema with
  | some i => (i, c)
  | none =>
      let r := upsertNode "TargetSchema" (targetSchemaProps tschema) c
      let c := { r.2 with
        cache := { r.2.cache with target_schemas := cacheSet r.2.cache.target_schemas tschema r.1 },
        res := { r.2.res with nodes := r.2.res.nodes ++ [({ id := r.1, name := tschema, ntype := "TargetSchema" } : RNode)] } }
      (r.1, c)

/-- Lines 957-991: the source table node plus, on a cache miss, the CONTAINS
edge from the source schema. -/
def stepSourceTable (sschema stable ttable : String) (ssId : Nat) (c : Ctx) : Nat × Ctx :=
  match cacheGet c.cache.source_tables (sschema ++ "." ++ stable) with
  | some i => (i, c)
  | none =>
      let r := upsertNode "SourceTable"
          (sourceTableProps stable sschema (some ("Source table for " ++ ttable))) c
      let c := { r.2 with
        cache := { r.2.cache with
          source_tables := cacheSet r.2.cache.source_tables (sschema ++ "." ++ stable) r.1 },
        res := { r.2.res with nodes := r.2.res.nodes ++ [({ id := r.1, name := stable, ntype := "SourceTable" } : RNode)] } }
      let rr := upsertRel "CONTAINS" ssId r.1 [] c
      let c := { rr.2 with
        res := { rr.2.res with rels := rr.2.res.rels ++ [({ id := rr.1, rtype := "CONTAINS", source := sschema, target := stable } : RRel)] } }
      (r.1, c)

/-- Lines 993-1029: the target table node plus, on a cache miss, the CONTAINS
edge from the target schema. -/
def stepTargetTable (tschema ttable entity descr : String) (collision : Option String)
    (tsId : Nat) (c : Ctx) : Nat × Ctx :=
  match cacheGet c.cache.target_tables (tschema ++ "." ++ ttable) with
  | some i => (i, c)
  | none =>
      let r := upsertNode "TargetTable" (targetTableProps ttable tschema descr entity collision) c
      let c := { r.2 with
        cache := { r.2.cache with
          target_tables := cacheSet r.2.cache.target_tables (tschema ++ "." ++ ttable) r.1 },
        res := { r.2.res with nodes := r.2.res.nodes ++ [({ id := r.1, name := ttable, ntype := "TargetTable" } : RNode)] } }
      let rr := upsertRel "CONTAINS" tsId r.1 [] c
      let c := { rr.2 with
        res := { rr.2.res with rels := rr.2.res.rels ++ [({ id := rr.1, rtype := "CONTAINS", source := tschema, target := ttable } : RRel)] } }
      (r.1, c)

/-- Lines 914-1029: source schema, target schema, source table, target table,
each consulting the cache first and emitting the node (plus, for tables, the
CONTAINS edge) only on a cache miss. -/
def setupPhase (sys sschema stable tschema ttable entity descr : String)
    (collision : Option String) (c : Ctx) : SetupOut :=
  let a := stepSourceSchema sys sschema c
  let b := stepTargetSchema tschema a.2
  let d := stepSourceTable sschema stable ttable a.1 b.2
  let e := stepTargetTable tschema ttable entity descr collision b.1 d.2
  ⟨a.1, b.1, d.1, e.1, e.2⟩

/-- Lines 1177-1237: the loop over the normalized source column names.
Cache hit reuses the node; otherwise a plain `SourceColumnNode` (default
`VARCHAR`, no description) plus its CONTAINS edge is created unless the name
was already handled in this declaration; then the column-level TRANSFORMS_TO
edge is always upserted, carrying `key_type` when present. -/
def genericSourceLoop (sschema stable tname : String) (stId tcId : Nat)
    (keyType : Option String) (names : List String)
    (srcIds : List (String × Nat)) (c : Ctx) : List (String × Nat) × Ctx :=
  match names with
  | [] => (srcIds, c)
  | n :: rest =>
    let skey := sschema ++ "." ++ stable ++ "." ++ n
    let (srcIds, c) :=
      match cacheGet c.cache.source_columns skey with
      | some sid => (cacheSet srcIds n sid, c)
      | none =>
          if (cacheGet srcIds n).isNone then
            let (sid, c) := upsertNode "SourceColumn" (sourceColumnProps n stable sschema "VARCHAR" none) c
            let c := { c with
              cache := { c.cache with source_columns := cacheSet c.cache.source_columns skey sid },
              res := { c.res with nodes := c.res.nodes ++ [({ id := sid, name := n, ntype := "SourceColumn" } : RNode)] } }
            let (rid, c) := upsertRel "CONTAINS" stId sid [("relationship_type", Val.s "CONTAINS")] c
            let c := { c with
              res := { c.res with rels := c.res.rels ++ [({ id := rid, rtype := "CONTAINS", source := stable, target := n } : RRel)] } }
            (cacheSet srcIds n sid, c)
          else
            (srcIds, c)
    let sid := (cacheGet srcIds n).getD 0
    let custom := (match keyType with | some kt => [("key_type", Val.s kt)] | none => [])
                  ++ [("relationship_type", Val.s "TRANSFORMS_TO")]
    let (rid, c) := upsertRel "TRANSFORMS_TO" sid tcId custom c
    let c := { c with
      res := { c.res with rels := c.res.rels ++ [({ id := rid, rtype := "TRANSFORMS_TO", source := n, target := tname } : RRel)] } }
    genericSourceLoop sschema stable tname stId tcId keyType rest srcIds c

/-- Lines 1119-1237 for one column: normalize the `source` descriptor; when it
is an object with a `name` field, first create the detailed source column
(with the object's dtype/description) on a cache miss; then run the generic
source-name loop. -/
def processSourcePart (sschema stable tname : String) (stId tcId : Nat)
    (keyType : Option String) (src : Option SourceDesc)
    (srcIds : List (String × Nat)) (c : Ctx) : List (String × Nat) × Ctx :=
  let names := normalizeSource src
  let (srcIds, c) :=
    match src with
    | some (.obj (some n) dt? ds?) =>
        let skey := sschema ++ "." ++ stable ++ "." ++ n
        (match cacheGet c.cache.source_columns skey with
        | some sid => (cacheSet srcIds n sid, c)
        | none =>
            let (sid, c) := upsertNode "SourceColumn"
                (sourceColumnProps n stable sschema (dt?.getD "VARCHAR") (some (ds?.getD ""))) c
            let c := { c with
              cache := { c.cache with source_columns := cacheSet c.cache.source_columns skey sid },
              res := { c.res with nodes := c.res.nodes ++ [({ id := sid, name := n, ntype := "SourceColumn" } : RNode)] } }
            let (rid, c) := upsertRel "CONTAINS" stId sid [("relationship_type", Val.s "CONTAINS")] c
            let c := { c with
              res := { c.res with rels := c.res.rels ++ [({ id := rid, rtype := "CONTAINS", source := stable, target := n } : RRel)] } }
            (cacheSet srcIds n sid, c))
    | _ => (srcIds, c)
  genericSourceLoop sschema stable tname stId tcId keyType names srcIds c

/-- Lines 1070-1117 when the target-column cache key is absent: create the
target column node with the resolved description, record it in the cache and
results, emit its CONTAINS edge from the target table, then handle the
column's `source` descriptor. -/
def colStepCreate (sschema stable tschema ttable : String) (stId ttId : Nat)
    (tname tdtype : String) (keyType : Option String) (src : Option SourceDesc)
    (tdescr : String) (srcIds tgtIds : List (String × Nat)) (c : Ctx) :
    List (String × Nat) × List (String × Nat) × Option (Option SourceDesc) × Ctx :=
  let tkey := tschema ++ "." ++ ttable ++ "." ++ tname
  let r := upsertNode "TargetColumn" (targetColumnProps tname ttable tschema tdtype keyType tdescr) c
  let c := { r.2 with
    cache := { r.2.cache with target_columns := cacheSet r.2.cache.target_columns tkey r.1 },
    res := { r.2.res with nodes := r.2.res.nodes ++ [({ id := r.1, name := tname, ntype := "TargetColumn" } : RNode)] } }
  let rr := upsertRel "CONTAINS" ttId r.1 [("relationship_type", Val.s "CONTAINS")] c
  let c := { rr.2 with
    res := { rr.2.res with rels := rr.2.res.rels ++ [({ id := rr.1, rtype := "CONTAINS", source := ttable, target := tname } : RRel)] } }
  let tgtIds := cacheSet tgtIds tname r.1
  let pr := processSourcePart sschema stable tname stId r.1 keyType src srcIds c
  (pr.1, tgtIds, some src, pr.2)

/-- One iteration of the per-column loop (lines 1061-1237).  `sv` models the
Python local variable `source`: `none` means it has not yet been assigned in
this function invocation; a processed column assigns it
(`source = column.get('source', None)`, line 1120) after its target-column
block.  The description fallback of a fresh target column (lines 1078-1083)
reads `source` — before its first assignment this read raises
`UnboundLocalError` (a `NameError`), surfaced as `BErr.unboundLocalSource`;
when `source` is bound, it still holds the previous column's descriptor, and
the fallback uses that descriptor's `description` field when it is an object
carrying one. -/
def colStep (sschema stable tschema ttable : String) (stId ttId : Nat)
    (col : ColumnMapping) (srcIds tgtIds : List (String × Nat))
    (sv : Option (Option SourceDesc)) (c : Ctx) :
    Except (Ctx × BErr) (List (String × Nat) × List (String × Nat) × Option (Option SourceDesc) × Ctx) :=
  match col.target with
  | none =>
      -- `'target' not in column`: warn and continue (lines 1062-1064).
      .ok (srcIds, tgtIds, sv, c)
  | some tname =>
    let tdtype := (col.dtype).getD "VARCHAR"
    let keyType := col.key_type
    let tkey := tschema ++ "." ++ ttable ++ "." ++ tname
    match cacheGet c.cache.target_columns tkey with
    | some tcId =>
        let tgtIds := cacheSet tgtIds tname tcId
        let src := col.source
        let pr := processSourcePart sschema stable tname stId tcId keyType src srcIds c
        .ok (pr.1, tgtIds, some src, pr.2)
    | none =>
        match col.description with
        | some d =>
            .ok (colStepCreate sschema stable tschema ttable stId ttId tname tdtype keyType col.source d srcIds tgtIds c)
        | none =>
            match sv with
            | none => .error (c, .unboundLocalSource)
            | some svv =>
                let d := match svv with | some (.obj _ _ (some d)) => d | _ => ""
                .ok (colStepCreate sschema stable tschema ttable stId ttId tname tdtype keyType col.source d srcIds tgtIds c)

/-- The per-column loop: stop at the first error (the Python exception
propagates), otherwise thread `source_column_ids`, `target_column_ids`, the
`source` local and the shared state through the remaining columns. -/
def colLoop (sschema stable tschema ttable : String) (stId ttId : Nat)
    (cols : List ColumnMapping) (srcIds tgtIds : List (String × Nat))
    (sv : Option (Option SourceDesc)) (c : Ctx) : Ctx × Option BErr :=
  match cols with
  | [] => (c, none)
  | col :: rest =>
      match colStep sschema stable tschema ttable stId ttId col srcIds tgtIds sv c with
      | .error p => (p.1, some p.2)
      | .ok q => colLoop sschema stable tschema ttable stId ttId rest q.1 q.2.1 q.2.2.1 q.2.2.2

/-- Embeds `GraphBuilder.build_detailed_data_vault_with_cache` (lines 855-1257) for a
parsed declaration: the missing-coordinate check, then the four coordinate
nodes, the always-upserted table-level TRANSFORMS_TO edge, then the column
loop.  On an error the state mutated so far (a shared cache and a live store)
is kept, exactly as in Python. -/
def buildDetailedDataVaultWithCache (sys : String) (decl : Decl) (st : BState) :
    BState × BuildResults × Option BErr :=
  if truthyCoords decl then
    let sschema := decl.source_schema.getD ""
    let stable := decl.source_table.getD ""
    let tschema := decl.target_schema.getD ""
    let ttable := decl.target_table.getD ""
    let entity := decl.target_entity_type.getD "hub"
    let collision := decl.collision_code
    let descr := decl.description.getD ""
    let s := setupPhase sys sschema stable tschema ttable entity descr collision
        { cache := st.cache, g := st.g, res := {} }
    -- Lines 1031-1050: the table-level TRANSFORMS_TO edge, always upserted.
    let custom := (if entity.isEmpty then [] else [("entity_type", Val.s entity)])
                  ++ (match collision with
                      | some cc => if cc.isEmpty then [] else [("collision_code", Val.s cc)]
                      | none => [])
    let tr := upsertRel "TRANSFORMS_TO" s.stId s.ttId custom s.ctx
    let c := { tr.2 with
      res := { tr.2.res with rels := tr.2.res.rels ++ [({ id := tr.1, rtype := "TRANSFORMS_TO", source := stable, target := ttable } : RRel)] } }
    let lr := colLoop sschema stable tschema ttable s.stId s.ttId decl.columns [] [] none c
    ({ cache := lr.1.cache, g := lr.1.g }, lr.1.res, lr.2)
  else
    (st, {}, some .missingFields)

/-! ### The multi-declaration orchestrator
(`build_multiple_data_vault_from_yaml_files`, yaml_endpoints.py 235-318) -/

/-- One uploaded file: its name and its parsed YAML content. -/
structure FileEntry where
  filename : String
  decl : Decl
deriving DecidableEq, Repr

/-- What ends up in the endpoint's `errors` list for one file. -/
inductive FileErr where
  | missingRequiredFields
  | buildError (e : BErr)
deriving DecidableEq, Repr

/-- One file's processing (lines 250-311): the required-field key-presence
precheck, then the builder call; any builder error is caught by the
`except` and turned into an `errors` entry. -/
def stepFile (sys : String) (st : BState) (f : FileEntry) : BState × Except FileErr BuildResults :=
  if f.decl.source_schema.isNone || f.decl.source_table.isNone
      || f.decl.target_schema.isNone || f.decl.target_table.isNone then
    (st, .error .missingRequiredFields)
  else
    let r := buildDetailedDataVaultWithCache sys f.decl st
    match r.2.2 with
    | some e => (r.1, .error (.buildError e))
    | none => (r.1, .ok r.2.1)

/-- The whole per-file loop: one shared node cache, successes appended to
`results`, failures appended to `errors` keyed by filename, processing always
continuing with the next file. -/
def processFilesAux (sys : String) (files : List FileEntry) (st : BState) :
    BState × List (String × BuildResults) × List (String × FileErr) :=
  match files with
  | [] => (st, [], [])
  | f :: rest =>
    let r1 := stepFile sys st f
    let rr := processFilesAux sys rest r1.1
    match r1.2 with
    | .ok o => (rr.1, (f.filename, o) :: rr.2.1, rr.2.2)
    | .error e => (rr.1, rr.2.1, (f.filename, e) :: rr.2.2)

/-! ### Lineage Query Engine (`app/services/data_vault_store.py`, 457-521) -/

/-- A committed Data Vault component row (`DataVaultComponentModel`),
restricted to the fields the lineage queries read. -/
structure DVComponent where
  name : String
  component_type : String
  source_system : String
  source_schema : String
  source_table : String
  target_schema : String
  target_table : Option String
deriving DecidableEq, Repr

/-- Embeds `component.target_table or component.name` (Python `or`: an absent or
empty explicit target table defaults to the component's own name). -/
def effTargetTable (c : DVComponent) : String :=
  match c.target_table with
  | some s => if s.isEmpty then c.name else s
  | none => c.name

/-- The lineage record fields common to both query results. -/
structure LineageRecord where
  source_system : String
  source_schema : String
  source_table : String
  target_schema : String
  target_table : String
  component_name : String
  component_type : String
deriving DecidableEq, Repr

def toLineageRecord (c : DVComponent) : LineageRecord :=
  { source_system := c.source_system, source_schema := c.source_schema,
    source_table := c.source_table, target_schema := c.target_schema,
    target_table := effTargetTable c, component_name := c.name,
    component_type := c.component_type }

/-- Embeds `if source_schema:` / `if source_table:`: the filter is applied only for a
truthy argument. -/
def optFilter (f : Option String) (v : String) : Bool :=
  match f with
  | none => true
  | some s => if s.isEmpty then true else v == s

/-- Embeds `DataVaultStoreService.get_source_to_target_lineage` (lines 457-492):
conjunctive filter on source system plus whichever of schema/table are
supplied; one record per matching component. -/
def get_source_to_target_lineage (store : List DVComponent) (source_system : String)
    (source_schema source_table : Option String) : List LineageRecord :=
  ((store.filter (fun c => c.source_system == source_system)).filter
      (fun c => optFilter source_schema c.source_schema)
    |>.filter (fun c => optFilter source_table c.source_table)).map toLineageRecord

/-- The SQL filter of `get_target_to_source_lineage`: target schema equal and
(explicit target table equal or the component's own name equal). -/
def t2sPred (ts tt : String) (c : DVComponent) : Bool :=
  c.target_schema == ts && (c.target_table == some tt || c.name == tt)

/-- Embeds `DataVaultStoreService.get_target_to_source_lineage` (lines 494-521):
first match or `None`. -/
def get_target_to_source_lineage (store : List DVComponent) (ts tt : String) :
    Option LineageRecord :=
  (store.find? (t2sPred ts tt)).map toLineageRecord

/-! ### Metadata Graph Builder, enhanced variant
(`build_source_metadata_graph_enhanced`, graph_builder.py 268-513) -/

/-- A column of the hierarchical metadata snapshot (the fields the builder
reads; `Option` for nullable foreign-key coordinates). -/
structure MColumn where
  name : String
  data_type : String := "VARCHAR"
  is_primary_key : Bool := false
  is_foreign_key : Bool := false
  foreign_key_table : Option String := none
  foreign_key_column : Option String := none
deriving DecidableEq, Repr

structure MTable where
  name : String
  schema : String
  description : Option String := none
  columns : List MColumn := []
deriving DecidableEq, Repr

structure MSystem where
  name : String
  description : Option String := none
  tables : List MTable := []
deriving DecidableEq, Repr

/-- The enhanced builder's `node_cache` (lines 288-295). -/
structure MetaCache where
  source_systems : List (String × Nat) := []
  source_schemas : List (String × Nat) := []
  source_tables : List (String × Nat) := []
  source_columns : List (String × Nat) := []
deriving DecidableEq, Repr

/-- Cache, store and `results` of one enhanced metadata build. -/
structure MCtx where
  cache : MetaCache := {}
  g : GraphState := {}
  res : BuildResults := {}
deriving DecidableEq, Repr

/-- Embeds `NodeManagerService.get_or_create_*`: a Cypher lookup on the given label
and key properties; on a miss the pydantic node is constructed and passed to
`create_node`.  (The lookup labels carry the `...Node` suffix of the pydantic
class names while `create_node` labels nodes with the `NodeType` enum value;
the embedding keeps both strings as found in the source.) -/
def getOrCreateNode (lookupLabel : String) (keyPs : Props) (createLabel : String)
    (mk : Nat → Props) (c : MCtx) : Nat × MCtx :=
  match (c.g.nodes.find? (nodeMatches lookupLabel keyPs)).map (·.nid) with
  | some i => (i, c)
  | none =>
      let t := c.g.clock
      let r := createNode createLabel (mk t) { c.g with clock := t + 1 }
      (r.1, { c with g := r.2 })

def upsertRelM (rt : String) (srcId tgtId : Nat) (custom : Props) (c : MCtx) : Nat × MCtx :=
  let t := c.g.clock
  let r := createRelationship rt srcId tgtId (relationshipProps custom t) { c.g with clock := t + 1 }
  (r.1, { c with g := r.2 })

/-- Embeds `if not any(node["id"] == id for node in results["nodes"])`. -/
def resHasNode (c : MCtx) (i : Nat) : Bool :=
  c.res.nodes.any (fun nd => nd.id == i)

/-- Lines 333-450 for one table: schema node (and CONTAINS from the system on
first appearance in `results`), table node (and CONTAINS from the schema),
column nodes (and CONTAINS from the table), all recorded in the cache. -/
def buildTableEnhanced (ssName : String) (ssId : Nat) (tbl : MTable) (c : MCtx) : MCtx :=
  let schemaName := tbl.schema
  let (schId, c) := getOrCreateNode "SourceSchemaNode" [("name", .s schemaName)]
      "SourceSchema" (sourceSchemaProps schemaName ssName) c
  let c := { c with cache := { c.cache with
    source_schemas := cacheSet c.cache.source_schemas schemaName schId } }
  let c :=
    if resHasNode c schId then c
    else
      let c := { c with res := { c.res with
        nodes := c.res.nodes ++ [({ id := schId, name := schemaName, ntype := "SourceSchema" } : RNode)] } }
      let (rid, c) := upsertRelM "CONTAINS" ssId schId [("relationship_type", Val.s "CONTAINS")] c
      { c with res := { c.res with
        rels := c.res.rels ++ [({ id := rid, rtype := "CONTAINS", source := ssName, target := schemaName } : RRel)] } }
  let (tblId, c) := getOrCreateNode "SourceTableNode"
      [("name", .s tbl.name), ("schema", .s schemaName)]
      "SourceTable" (sourceTableProps tbl.name schemaName tbl.description) c
  let c := { c with cache := { c.cache with
    source_tables := cacheSet c.cache.source_tables (schemaName ++ "." ++ tbl.name) tblId } }
  let c :=
    if resHasNode c tblId then c
    else
      let c := { c with res := { c.res with
        nodes := c.res.nodes ++ [({ id := tblId, name := tbl.name, ntype := "SourceTable" } : RNode)] } }
      let (rid, c) := upsertRelM "CONTAINS" schId tblId [("relationship_type", Val.s "CONTAINS")] c
      { c with res := { c.res with
        rels := c.res.rels ++ [({ id := rid, rtype := "CONTAINS", source := schemaName, target := tbl.name } : RRel)] } }
  tbl.columns.foldl (fun c col =>
    let (colId, c) := getOrCreateNode "SourceColumnNode"
        [("name", .s col.name), ("table", .s tbl.name), ("schema", .s schemaName)]
        "SourceColumn" (sourceColumnProps col.name tbl.name schemaName col.data_type none) c
    let c := { c with cache := { c.cache with
      source_columns := cacheSet c.cache.source_columns
        (schemaName ++ "." ++ tbl.name ++ "." ++ col.name) colId } }
    if resHasNode c colId then c
    else
      let c := { c with res := { c.res with
        nodes := c.res.nodes ++ [({ id := colId, name := col.name, ntype := "SourceColumn" } : RNode)] } }
      let (rid, c) := upsertRelM "CONTAINS" tblId colId [("relationship_type", Val.s "CONTAINS")] c
      { c with res := { c.res with
        rels := c.res.rels ++ [({ id := rid, rtype := "CONTAINS", source := tbl.name, target := col.name } : RRel)] } }) c

/-- Lines 452-493: the foreign-key pass of ONE table, run inside the per-table
loop right after that table's columns.  The referenced column key is formed
with the referring table's schema and must already be in `node_cache`
(columns of tables processed so far); otherwise the reference is skipped with
no warning and no error. -/
def fkPass (tables : List MTable) (tbl : MTable) (c : MCtx) : MCtx :=
  let schemaName := tbl.schema
  tbl.columns.foldl (fun c col =>
    if col.is_foreign_key && truthy col.foreign_key_table && truthy col.foreign_key_column then
      let curKey := schemaName ++ "." ++ tbl.name ++ "." ++ col.name
      let curId := (cacheGet c.cache.source_columns curKey).getD 0
      match tables.find? (fun t => t.name == col.foreign_key_table.getD "") with
      | none => c
      | some refTbl =>
          match refTbl.columns.find? (fun rc => rc.name == col.foreign_key_column.getD "") with
          | none => c
          | some refCol =>
              let refKey := schemaName ++ "." ++ refTbl.name ++ "." ++ refCol.name
              match cacheGet c.cache.source_columns refKey with
              | none => c
              | some refId =>
                  let (rid, c) := upsertRelM "REFERENCES" curId refId
                      [("relationship_type", Val.s "REFERENCES")] c
                  let entry : RRel :=
                    { id := rid, rtype := "REFERENCES",
                      source := tbl.name ++ "." ++ col.name,
                      target := refTbl.name ++ "." ++ refCol.name }
                  { c with res := { c.res with rels := c.res.rels ++ [entry] } }
    else c) c

/-- Lines 316-493 for one source system: the system node, then per table the
containment hierarchy immediately followed by that table's foreign-key pass. -/
def buildSystemEnhanced (sys : MSystem) (c : MCtx) : MCtx :=
  let (ssId, c) := getOrCreateNode "SourceSystemNode" [("name", .s sys.name)]
      "SourceSystem"
      (sourceSystemProps sys.name (sys.description.getD ("Source system: " ++ sys.name))) c
  let c := { c with cache := { c.cache with
    source_systems := cacheSet c.cache.source_systems sys.name ssId } }
  let c :=
    if resHasNode c ssId then c
    else { c with res := { c.res with
      nodes := c.res.nodes ++ [({ id := ssId, name := sys.name, ntype := "SourceSystem" } : RNode)] } }
  sys.tables.foldl (fun c tbl => fkPass sys.tables tbl (buildTableEnhanced sys.name ssId tbl c)) c

/-- Embeds `build_source_metadata_graph_enhanced` over the hierarchical snapshot. -/
def buildSourceMetadataEnhanced (systems : List MSystem) (c : MCtx) : MCtx :=
  systems.foldl (fun c sys => buildSystemEnhanced sys c) c

/-- The (source, target) column pairs of the REFERENCES edges recorded in the
builder's `results`. -/
def referencesEmitted (c : MCtx) : List (String × String) :=
  c.res.rels.filterMap (fun r => if r.rtype == "REFERENCES" then some (r.source, r.target) else none)

/-- Modelled from the claim's own wording, for comparison with the code: the
foreign-key references of a system that resolve to an existing (table,
column) pair within the same system, independent of table order — what a
second pass running after all columns of all tables are materialized would
emit. -/
def specResolvedReferences (sys : MSystem) : List (String × String) :=
  sys.tables.foldl (fun acc tbl =>
    acc ++ tbl.columns.filterMap (fun col =>
      if col.is_foreign_key && truthy col.foreign_key_table && truthy col.foreign_key_column then
        match sys.tables.find? (fun t => t.name == col.foreign_key_table.getD "") with
        | some refTbl =>
            match refTbl.columns.find? (fun rc => rc.name == col.foreign_key_column.getD "") with
            | some refCol => some (tbl.name ++ "." ++ col.name, refTbl.name ++ "." ++ refCol.name)
            | none => none
        | none => none
      else none)) []

/-! ### Concrete inputs used by individual claim theorems -/

/-- A well-formed declaration with no columns (C1). -/
def c1Decl : Decl :=
  { source_schema := some "CRM", source_table := some "CUSTOMER",
    target_schema := some "INTEGRATION", target_table := some "HUB_CUSTOMER",
    target_entity_type := some "hub", columns := [] }

/-- Declaration D1 of the §8 batch scenario (C2). -/
def c2Decl1 : Decl :=
  { source_schema := some "CRM", source_table := some "CUSTOMER",
    target_schema := some "INTEGRATION", target_table := some "HUB_CUSTOMER",
    target_entity_type := some "hub",
    columns := [ { target := some "DV_HKEY_HUB_CUSTOMER", source := some (.list [.str "CUST_ID"]) },
                 { target := some "CUST_ID", key_type := some "biz_key", source := some (.str "CUST_ID") } ] }

/-- Declaration D2 of the §8 batch scenario (C2). -/
def c2Decl2 : Decl :=
  { source_schema := some "CRM", source_table := some "CUSTOMER",
    target_schema := some "INTEGRATION", target_table := some "SAT_CUSTOMER_DETAILS",
    target_entity_type := some "satellite",
    columns := [ { target := some "EMAIL", source := some (.obj (some "EMAIL_ADDR") none none) } ] }

/-- A declaration whose first processed column has a target name but no
description (C3 witness); the leading column has no target and is skipped. -/
def c3Decl : Decl :=
  { source_schema := some "S", source_table := some "T",
    target_schema := some "TS", target_table := some "TT",
    columns := [ { key_type := some "stray" },
                 { target := some "C1", source := some (.str "A") } ] }

/-- A declaration with the target table key absent entirely (C4 witness). -/
def c4BadDecl : Decl :=
  { source_schema := some "S", source_table := some "T",
    target_schema := some "TS", target_table := none, columns := [] }

/-- A well-formed sibling declaration (C4 witness). -/
def c4OkDecl : Decl :=
  { source_schema := some "S", source_table := some "T",
    target_schema := some "TS", target_table := some "TT",
    columns := [ { target := some "C1", description := some "d", source := some (.str "A") } ] }

/-- The store after a first `SourceSystem` upsert with description "old"
taken at clock 0 (C5). -/
def c5Store : GraphState :=
  (createNode "SourceSystem" (sourceSystemProps "SYS" "old" 0) {}).2

/-- The node that first upsert stored (C5). -/
def c5StoredNode : GNode :=
  { nid := 0, label := "SourceSystem", props := sourceSystemProps "SYS" "old" 0 }

/-- A committed hub declaration (C9 witness). -/
def c9Comp : DVComponent :=
  { name := "HUB_CUSTOMER", component_type := "hub", source_system := "SYS",
    source_schema := "CRM", source_table := "CUSTOMER",
    target_schema := "INTEGRATION", target_table := some "HUB_CUSTOMER" }

/-- Table `S.T1` whose column `A` declares a foreign key to `T2.B` (C10). -/
def c10TblT1 : MTable :=
  { name := "T1", schema := "S",
    columns := [ { name := "A", is_foreign_key := true,
                   foreign_key_table := some "T2", foreign_key_column := some "B" } ] }

/-- Table `S.T2` with column `B` (C10). -/
def c10TblT2 : MTable :=
  { name := "T2", schema := "S", columns := [ { name := "B" } ] }

/-- The referencing table listed before the referenced one (C10). -/
def c10SysForward : MSystem := { name := "SYS", tables := [c10TblT1, c10TblT2] }

/-- The referenced table listed first (C10). -/
def c10SysBackward : MSystem := { name := "SYS", tables := [c10TblT2, c10TblT1] }

/-! ### Shared lemmas -/

theorem lookupProp_setProp_ne (ps : Props) (k : String) (v : Val) (k' : String)
    (h : k' ≠ k) : lookupProp (setProp ps k v) k' = lookupProp ps k' := by
  induction ps with
  | nil =>
      simp only [setProp, lookupProp]
      rw [if_neg (fun hk => h hk.symm)]
  | cons kv rest ih =>
    obtain ⟨k0, v0⟩ := kv
    by_cases hk : k0 = k
    · subst hk
      simp only [setProp, if_pos rfl, lookupProp]
      rw [if_neg (fun hk' => h hk'.symm), if_neg (fun hk' => h hk'.symm)]
    · simp only [setProp, if_neg hk, lookupProp]
      by_cases hq : k0 = k'
      · rw [if_pos hq, if_pos hq]
      · rw [if_neg hq, if_neg hq, ih]

theorem upsertRel_cache (rt : String) (a b : Nat) (ps : Props) (c : Ctx) :
    ((upsertRel rt a b ps c).2).cache = c.cache := rfl

theorem upsertNode_cache (label : String) (mk : Nat → Props) (c : Ctx) :
    ((upsertNode label mk c).2).cache = c.cache := rfl

theorem stepSourceSchema_target_columns (sys ss : String) (c : Ctx) :
    ((stepSourceSchema sys ss c).2).cache.target_columns = c.cache.target_columns := by
  unfold stepSourceSchema; split <;> rfl

theorem stepTargetSchema_target_columns (ts : String) (c : Ctx) :
    ((stepTargetSchema ts c).2).cache.target_columns = c.cache.target_columns := by
  unfold stepTargetSchema; split <;> rfl

theorem stepSourceTable_target_columns (ss st tt : String) (i : Nat) (c : Ctx) :
    ((stepSourceTable ss st tt i c).2).cache.target_columns = c.cache.target_columns := by
  unfold stepSourceTable; split <;> rfl

theorem stepTargetTable_target_columns (ts tt ent dsc : String) (col : Option String)
    (i : Nat) (c : Ctx) :
    ((stepTargetTable ts tt ent dsc col i c).2).cache.target_columns = c.cache.target_columns := by
  unfold stepTargetTable; split <;> rfl

theorem setupPhase_target_columns (sys ss st ts tt ent dsc : String)
    (col : Option String) (c : Ctx) :
    ((setupPhase sys ss st ts tt ent dsc col c).ctx).cache.target_columns
      = c.cache.target_columns := by
  show ((stepTargetTable ts tt ent dsc col _ _).2).cache.target_columns = c.cache.target_columns
  rw [stepTargetTable_target_columns, stepSourceTable_target_columns,
    stepTargetSchema_target_columns, stepSourceSchema_target_columns]

theorem colLoop_skip_untargeted (ss st ts tt : String) (a b : Nat)
    (pre rest : List ColumnMapping) (hpre : ∀ x ∈ pre, x.target = none)
    (srcIds tgtIds : List (String × Nat)) (sv : Option (Option SourceDesc)) (c : Ctx) :
    colLoop ss st ts tt a b (pre ++ rest) srcIds tgtIds sv c
      = colLoop ss st ts tt a b rest srcIds tgtIds sv c := by
  induction pre with
  | nil => rfl
  | cons x xs ih =>
      have hx : x.target = none := hpre x (by simp)
      rw [List.cons_append, colLoop, colStep, hx]
      exact ih (fun y hy => hpre y (by simp [hy]))

theorem colLoop_unbound_first (ss st ts tt : String) (a b : Nat)
    (col : ColumnMapping) (rest : List ColumnMapping) (tn : String)
    (srcIds tgtIds : List (String × Nat)) (c : Ctx)
    (htgt : col.target = some tn) (hdesc : col.description = none)
    (hkey : cacheGet c.cache.target_columns (ts ++ "." ++ tt ++ "." ++ tn) = none) :
    colLoop ss st ts tt a b (col :: rest) srcIds tgtIds none c
      = (c, some BErr.unboundLocalSource) := by
  rw [colLoop, colStep, htgt]
  simp only [hkey, hdesc]

theorem buildDetailed_malformed (sys : String) (decl : Decl) (st : BState)
    (h : truthyCoords decl = false) :
    buildDetailedDataVaultWithCache sys decl st = (st, {}, some BErr.missingFields) := by
  simp only [buildDetailedDataVaultWithCache, h, Bool.false_eq_true, if_false]

theorem stepFile_malformed (sys : String) (st : BState) (f : FileEntry)
    (h : truthyCoords f.decl = false) :
    ∃ e, stepFile sys st f = (st, .error e) := by
  unfold stepFile
  split
  · exact ⟨.missingRequiredFields, rfl⟩
  · rw [buildDetailed_malformed sys f.decl st h]
    exact ⟨.buildError .missingFields, rfl⟩

theorem processFilesAux_head (sys : String) (st : BState) (x : FileEntry)
    (rest : List FileEntry) :
    (processFilesAux sys (x :: rest) st).1
        = (processFilesAux sys rest (stepFile sys st x).1).1 ∧
    (processFilesAux sys (x :: rest) st).2.1
        = (match (stepFile sys st x).2 with
           | .ok o => (x.filename, o) :: (processFilesAux sys rest (stepFile sys st x).1).2.1
           | .error _ => (processFilesAux sys rest (stepFile sys st x).1).2.1) := by
  rw [processFilesAux]
  rcases hx : (stepFile sys st x).2 with e | o <;> simp [hx]

theorem processFilesAux_skip_failed (sys : String) (pre post : List FileEntry)
    (f : FileEntry) (h : truthyCoords f.decl = false) (st : BState) :
    (processFilesAux sys (pre ++ f :: post) st).1
        = (processFilesAux sys (pre ++ post) st).1 ∧
    (processFilesAux sys (pre ++ f :: post) st).2.1
        = (processFilesAux sys (pre ++ post) st).2.1 := by
  induction pre generalizing st with
  | nil =>
      obtain ⟨e, he⟩ := stepFile_malformed sys st f h
      simp only [List.nil_append]
      rw [processFilesAux, he]
      exact ⟨rfl, rfl⟩
  | cons x xs ih =>
      have h1 := processFilesAux_head sys st x (xs ++ f :: post)
      have h2 := processFilesAux_head sys st x (xs ++ post)
      have ihs := ih ((stepFile sys st x).1)
      refine ⟨by rw [List.cons_append, h1.1, List.cons_append, h2.1]; exact ihs.1, ?_⟩
      rw [List.cons_append, h1.2, List.cons_append, h2.2]
      rcases (stepFile sys st x).2 with e | o
      · exact ihs.2
      · rw [ihs.2]

/-- C3: in `build_detailed_data_vault_with_cache`, for every declaration whose
first processed column mapping (the first entry carrying a `target` key;
earlier entries without one are skipped) lacks a `description` key and whose
target-column cache key is not already present in the node cache, execution
raises an unhandled `NameError` (`UnboundLocalError`), because the
description-fallback branch (line 1081) evaluates `isinstance(source, dict)`
on the local variable `source` before that variable's first assignment (line
1120) in the same loop iteration. -/
theorem C3_unbound_source_read (sys : String) (decl : Decl) (st : BState)
    (pre : List ColumnMapping) (col : ColumnMapping) (rest : List ColumnMapping) (tn : String)
    (hcoords : truthyCoords decl = true)
    (hcols : decl.columns = pre ++ col :: rest)
    (hpre : ∀ x ∈ pre, x.target = none)
    (htgt : col.target = some tn) (hdesc : col.description = none)
    (hkey : cacheGet st.cache.target_columns
        ((decl.target_schema.getD "") ++ "." ++ (decl.target_table.getD "") ++ "." ++ tn) = none) :
    (buildDetailedDataVaultWithCache sys decl st).2.2 = some BErr.unboundLocalSource := by
  simp only [buildDetailedDataVaultWithCache, hcoords, if_true, hcols]
  rw [colLoop_skip_untargeted _ _ _ _ _ _ pre (col :: rest) hpre]
  rw [colLoop_unbound_first _ _ _ _ _ _ col rest tn _ _ _ htgt hdesc]
  rw [upsertRel_cache, setupPhase_target_columns]
  exact hkey

/-- Witness for C3 at the concrete declaration `c3Decl` and an empty batch
state. -/
theorem C3_unbound_source_read_witness :
    truthyCoords c3Decl = true ∧
    (buildDetailedDataVaultWithCache "SYS" c3Decl {}).2.2 = some BErr.unboundLocalSource :=
  ⟨by decide,
   C3_unbound_source_read "SYS" c3Decl {}
     [{ key_type := some "stray" }] { target := some "C1", source := some (.str "A") } [] "C1"
     (by decide) (by decide) (by decide) rfl rfl rfl⟩

/-- C4: a declaration missing (or carrying an empty) source schema, source
table, target schema or target table is rejected with the
MalformedDeclaration-style `ValueError` before any node or edge write — the
returned state is exactly the input state and the results are empty — and in
a batch the failed declaration leaves the shared state and every sibling
declaration's outcome unchanged. -/
theorem C4_failfast_malformed :
    (∀ (sys : String) (decl : Decl) (st : BState), truthyCoords decl = false →
        buildDetailedDataVaultWithCache sys decl st = (st, {}, some BErr.missingFields)) ∧
    (∀ (sys : String) (pre post : List FileEntry) (f : FileEntry),
        truthyCoords f.decl = false →
        ∀ st : BState,
        (processFilesAux sys (pre ++ f :: post) st).1
            = (processFilesAux sys (pre ++ post) st).1 ∧
        (processFilesAux sys (pre ++ f :: post) st).2.1
            = (processFilesAux sys (pre ++ post) st).2.1) :=
  ⟨fun sys decl st h => buildDetailed_malformed sys decl st h,
   fun sys pre post f h st => processFilesAux_skip_failed sys pre post f h st⟩

/-- Witness for C4: the declaration with no `target_table` key is rejected
with zero writes, and removing it from a two-file batch changes neither the
final state nor the sibling's result. -/
theorem C4_failfast_malformed_witness :
    truthyCoords c4BadDecl = false ∧
    buildDetailedDataVaultWithCache "SYS" c4BadDecl {} = ({}, {}, some BErr.missingFields) ∧
    (processFilesAux "SYS" ([] ++ ⟨"bad.yaml", c4BadDecl⟩ :: [⟨"ok.yaml", c4OkDecl⟩]) {}).1
        = (processFilesAux "SYS" ([] ++ [⟨"ok.yaml", c4OkDecl⟩]) {}).1 :=
  ⟨by decide,
   C4_failfast_malformed.1 "SYS" c4BadDecl {} (by decide),
   (C4_failfast_malformed.2 "SYS" [] [⟨"ok.yaml", c4OkDecl⟩] ⟨"bad.yaml", c4BadDecl⟩ (by decide) {}).1⟩

set_option maxRecDepth 10000 in
/-- C1 (failing evaluation): node upsert is NOT idempotent for the Data Vault
node categories.  Re-running the same declaration as a second batch (fresh
cache, same store) duplicates the SourceSchema and SourceTable nodes: these
node types are missing from the merge-key chain of `create_node`, so the
merge key falls back to all properties including the fresh `created_at`
timestamp, and the uniqueness constraints of `SchemaManager.setup_schema`
target labels (`SourceSchemaNode`, ...) that created nodes (`SourceSchema`,
...) never carry. -/
theorem C1_node_upsert_duplicates :
    (buildDetailedDataVaultWithCache "SYS" c1Decl {}).2.2 = none ∧
    (buildDetailedDataVaultWithCache "SYS" c1Decl
        { cache := {}, g := (buildDetailedDataVaultWithCache "SYS" c1Decl {}).1.g }).2.2 = none ∧
    countLabelName (buildDetailedDataVaultWithCache "SYS" c1Decl
        { cache := {}, g := (buildDetailedDataVaultWithCache "SYS" c1Decl {}).1.g }).1.g
      "SourceSchema" "CRM" = 2 ∧
    countLabelName (buildDetailedDataVaultWithCache "SYS" c1Decl
        { cache := {}, g := (buildDetailedDataVaultWithCache "SYS" c1Decl {}).1.g }).1.g
      "SourceTable" "CUSTOMER" = 2 := by decide

set_option maxRecDepth 10000 in
/-- C2 (failing evaluation): the §8 batch scenario D1/D2 through the shared
cache orchestrator.  The schema/table level is as the claim says (one
SourceSchema CRM, one SourceTable CRM.CUSTOMER, two TargetTable nodes, two
table-level TRANSFORMS_TO edges), but no SourceColumn node is ever created:
both declarations crash in the column loop on the unbound local `source`
(see C3), so the claimed SourceColumn nodes CUST_ID and EMAIL_ADDR are
missing and both files land in the errors list. -/
theorem C2_batch_scenario_eval :
    countLabelName (processFilesAux "CRM_SYS" [⟨"d1.yaml", c2Decl1⟩, ⟨"d2.yaml", c2Decl2⟩] {}).1.g
      "SourceSchema" "CRM" = 1 ∧
    countLabelName (processFilesAux "CRM_SYS" [⟨"d1.yaml", c2Decl1⟩, ⟨"d2.yaml", c2Decl2⟩] {}).1.g
      "SourceTable" "CUSTOMER" = 1 ∧
    countLabel (processFilesAux "CRM_SYS" [⟨"d1.yaml", c2Decl1⟩, ⟨"d2.yaml", c2Decl2⟩] {}).1.g
      "SourceColumn" = 0 ∧
    countLabel (processFilesAux "CRM_SYS" [⟨"d1.yaml", c2Decl1⟩, ⟨"d2.yaml", c2Decl2⟩] {}).1.g
      "TargetTable" = 2 ∧
    countRelType (processFilesAux "CRM_SYS" [⟨"d1.yaml", c2Decl1⟩, ⟨"d2.yaml", c2Decl2⟩] {}).1.g
      "TRANSFORMS_TO" = 2 ∧
    (processFilesAux "CRM_SYS" [⟨"d1.yaml", c2Decl1⟩, ⟨"d2.yaml", c2Decl2⟩] {}).2.1 = [] ∧
    (processFilesAux "CRM_SYS" [⟨"d1.yaml", c2Decl1⟩, ⟨"d2.yaml", c2Decl2⟩] {}).2.2
      = [("d1.yaml", .buildError .unboundLocalSource),
         ("d2.yaml", .buildError .unboundLocalSource)] := by decide

/-- C5, counterexample to the claim as stated: an upsert that matches an
existing `SourceSystem` node and explicitly supplies a new `description`
value leaves the stored description at its old value — explicitly supplied
properties are NOT refreshed on match (`ON MATCH SET` touches only
`updated_at`). -/
theorem C5_supplied_props_not_refreshed :
    (createNode "SourceSystem" (sourceSystemProps "SYS" "new" 1) c5Store).1 = 0 ∧
    (((createNode "SourceSystem" (sourceSystemProps "SYS" "new" 1) c5Store).2).nodes.map
        (fun nd => lookupProp nd.props "description")) = [some (Val.s "old")] ∧
    some (Val.s "old") ≠ some (Val.s "new") := by decide

/-- C5, amended: on a merge match the existing node keeps its id, no node is
added, and every stored property except the audit timestamp `updated_at` —
in particular the creation timestamp `created_at` — is unchanged, with the
supplied properties ignored; on a miss the created node carries exactly the
supplied properties. -/
theorem C5_match_refreshes_only_timestamp :
    (∀ (label : String) (props : Props) (g : GraphState) (nd : GNode),
        findMergeMatch label props g = some nd →
        (createNode label props g).1 = nd.nid ∧
        ((createNode label props g).2).nodes.length = g.nodes.length ∧
        ∀ m ∈ g.nodes, ∃ m', m' ∈ ((createNode label props g).2).nodes ∧ m'.nid = m.nid ∧
          m'.label = m.label ∧
          ∀ k, k ≠ "updated_at" → lookupProp m'.props k = lookupProp m.props k) ∧
    (∀ (label : String) (props : Props) (g : GraphState),
        findMergeMatch label props g = none →
        ((createNode label props g).2).nodes
          = g.nodes ++ [{ nid := g.nextId, label := label, props := props }]) := by
  constructor
  · intro label props g nd h
    simp only [createNode, h]
    refine ⟨trivial, by simp, ?_⟩
    intro m hm
    refine ⟨if m.nid = nd.nid then { m with props := refreshUpdatedAt m.props props } else m,
      List.mem_map_of_mem _ hm, ?_, ?_, ?_⟩
    · split <;> rfl
    · split <;> rfl
    · intro k hk
      split
      · show lookupProp (refreshUpdatedAt m.props props) k = lookupProp m.props k
        unfold refreshUpdatedAt
        cases hu : lookupProp props "updated_at" with
        | none => rfl
        | some v => exact lookupProp_setProp_ne _ _ _ _ hk
      · rfl
  · intro label props g h
    simp only [createNode, h]

/-- Witness for the amended C5 at the concrete matched upsert of
`C5_supplied_props_not_refreshed`. -/
theorem C5_match_refreshes_only_timestamp_witness :
    findMergeMatch "SourceSystem" (sourceSystemProps "SYS" "new" 1) c5Store = some c5StoredNode ∧
    ((createNode "SourceSystem" (sourceSystemProps "SYS" "new" 1) c5Store).1 = c5StoredNode.nid ∧
     ((createNode "SourceSystem" (sourceSystemProps "SYS" "new" 1) c5Store).2).nodes.length
        = c5Store.nodes.length ∧
     ∀ m ∈ c5Store.nodes,
       ∃ m', m' ∈ ((createNode "SourceSystem" (sourceSystemProps "SYS" "new" 1) c5Store).2).nodes ∧
         m'.nid = m.nid ∧ m'.label = m.label ∧
         ∀ k, k ≠ "updated_at" → lookupProp m'.props k = lookupProp m.props k) :=
  ⟨by decide,
   C5_match_refreshes_only_timestamp.1 "SourceSystem" (sourceSystemProps "SYS" "new" 1)
     c5Store c5StoredNode (by decide)⟩

/-- C6: the three shapes of a `source` descriptor — bare string "A", list
["A"], object with name "A" — normalize to the same singleton column-name
list; in general a bare string becomes a singleton, a list keeps exactly its
string entries, an object with a name field becomes a singleton, and the
object's dtype/description are carried onto the created source column's
properties. -/
theorem C6_source_descriptor_normalization :
    (normalizeSource (some (.str "A")) = ["A"] ∧
     normalizeSource (some (.list [.str "A"])) = ["A"] ∧
     normalizeSource (some (.obj (some "A") none none)) = ["A"]) ∧
    (∀ s : String, normalizeSource (some (.str s)) = [s]) ∧
    normalizeSource (some (.list [.str "A", .nonstr, .str "B"])) = ["A", "B"] ∧
    (∀ (n : String) (dt ds : Option String), normalizeSource (some (.obj (some n) dt ds)) = [n]) ∧
    (∀ (n tb sc dt d : String) (t : Nat),
        lookupProp (sourceColumnProps n tb sc dt (some d) t) "data_type" = some (Val.s dt) ∧
        lookupProp (sourceColumnProps n tb sc dt (some d) t) "description" = some (Val.s d)) := by
  refine ⟨by decide, fun s => rfl, by decide, fun n dt ds => rfl,
    fun n tb sc dt d t => ⟨?_, ?_⟩⟩ <;> rfl

/-- C7, counterexample to the claim as stated: a relationship-type value
outside the fixed enumeration is spliced into the query text unchanged — no
allow-list validation happens before query construction and no safe default
is substituted, so the executed relationship type is not in the allow-list. -/
theorem C7_reltype_reaches_query_unvalidated :
    spliceRelType "TOTALLY_BOGUS" = "TOTALLY_BOGUS" ∧
    "TOTALLY_BOGUS" ∉ relTypeAllowList ∧
    (((createRelationship "TOTALLY_BOGUS" 0 1 [] { nextId := 2 }).2).rels.map
        (fun r => r.rtype)) = ["TOTALLY_BOGUS"] := by decide

/-- C7, amended: before query construction the relationship type is only
normalized by taking the substring after the last dot (so every enum value
passes through unchanged and dotted enum reprs lose their prefix); the
known-safe default CONTAINS — itself in the allow-list — is substituted only
inside the error handler that reacts to a database syntax error about an
invalid dot, not by any validation before the splice. -/
theorem C7_reltype_splice_only :
    (relTypeAllowList.all (fun rt => spliceRelType rt == rt)) = true ∧
    spliceRelType "RelationshipType.CONTAINS" = "CONTAINS" ∧
    fallbackRelType ∈ relTypeAllowList ∧
    spliceRelType "NOT_IN_THE_ALLOWLIST" = "NOT_IN_THE_ALLOWLIST" := by decide

/-- C8: in the multi-file orchestrator every file of the batch contributes
exactly one outcome — a success entry or an `errors` entry keyed by its
filename — so a failure raised inside one declaration's processing (caught by
the per-file `except`) never aborts the remaining sibling declarations. -/
theorem C8_batch_failure_isolation (sys : String) (files : List FileEntry) (st : BState) :
    (processFilesAux sys files st).2.1.length + (processFilesAux sys files st).2.2.length
      = files.length ∧
    ((processFilesAux sys files st).2.2.all
        (fun e => files.any (fun f => f.filename == e.1))) = true := by
  induction files generalizing st with
  | nil => simp [processFilesAux]
  | cons f rest ih =>
      have ihs := ih ((stepFile sys st f).1)
      rw [processFilesAux]
      rcases hx : (stepFile sys st f).2 with e | o <;>
        simp only [List.length_cons, List.all_cons, List.any_cons, beq_self_eq_true,
          Bool.true_or, Bool.true_and, Bool.and_eq_true, Bool.or_eq_true,
          List.all_eq_true, List.any_eq_true] at ihs ⊢ <;>
        refine ⟨by omega, ?_⟩ <;>
        · intro x hxm
          obtain ⟨f', hf', hb⟩ := ihs.2 x hxm
          exact Or.inr ⟨f', hf', hb⟩

/-- C9: a committed component with source (S, T) appears in
`SourceToTarget(system, S, T)` with its effective target table named; when it
is the first component of the store matching `(S2, T2)` — the first-match
rule the query itself specifies — `TargetToSource(S2, T2)` returns its record
naming T; and when no component matches, `TargetToSource` returns NotFound
(`None`).  The match accepts either the explicit target-table attribute or
the component's own name, the default when the attribute is absent. -/
theorem C9_lineage_symmetry :
    (∀ (store : List DVComponent) (c : DVComponent), c ∈ store →
        (toLineageRecord c) ∈ get_source_to_target_lineage store c.source_system
            (some c.source_schema) (some c.source_table) ∧
        (toLineageRecord c).target_table = effTargetTable c ∧
        (toLineageRecord c).source_table = c.source_table) ∧
    (∀ (store : List DVComponent) (c : DVComponent),
        store.find? (t2sPred c.target_schema (effTargetTable c)) = some c →
        get_target_to_source_lineage store c.target_schema (effTargetTable c)
          = some (toLineageRecord c) ∧
        (toLineageRecord c).source_table = c.source_table) ∧
    (∀ (store : List DVComponent) (ts tt : String),
        (∀ c ∈ store, t2sPred ts tt c = false) →
        get_target_to_source_lineage store ts tt = none) := by
  refine ⟨?_, ?_, ?_⟩
  · intro store c hmem
    refine ⟨?_, rfl, rfl⟩
    unfold get_source_to_target_lineage
    apply List.mem_map_of_mem
    apply List.mem_filter.mpr
    refine ⟨List.mem_filter.mpr ⟨List.mem_filter.mpr ⟨hmem, by simp⟩, ?_⟩, ?_⟩
    · unfold optFilter; split <;> simp_all
    · unfold optFilter; split <;> simp_all
  · intro store c hfind
    unfold get_target_to_source_lineage
    rw [hfind]
    exact ⟨rfl, rfl⟩
  · intro store ts tt h
    unfold get_target_to_source_lineage
    rw [List.find?_eq_none.mpr (fun x hx => by simp [h x hx])]
    rfl

/-- Witness for C9 at a single-component store. -/
theorem C9_lineage_symmetry_witness :
    (c9Comp ∈ [c9Comp] ∧
     (toLineageRecord c9Comp) ∈ get_source_to_target_lineage [c9Comp] c9Comp.source_system
        (some c9Comp.source_schema) (some c9Comp.source_table)) ∧
    ([c9Comp].find? (t2sPred c9Comp.target_schema (effTargetTable c9Comp)) = some c9Comp ∧
     get_target_to_source_lineage [c9Comp] c9Comp.target_schema (effTargetTable c9Comp)
        = some (toLineageRecord c9Comp)) :=
  ⟨⟨by decide, (C9_lineage_symmetry.1 [c9Comp] c9Comp (by decide)).1⟩,
   ⟨by decide, (C9_lineage_symmetry.2.1 [c9Comp] c9Comp (by decide)).1⟩⟩

/-- C10, counterexample to the claim as stated: in the system
`c10SysForward` the foreign key T1.A → T2.B resolves within the system (the
claim's after-everything second pass would emit it), but the code's per-table
pass runs before T2's columns are materialized, so no REFERENCES edge is
emitted — and the reference is skipped silently. -/
theorem C10_fk_pass_misses_forward_reference :
    specResolvedReferences c10SysForward = [("T1.A", "T2.B")] ∧
    referencesEmitted (buildSourceMetadataEnhanced [c10SysForward] {}) = [] := by decide

/-- C10, amended: the foreign-key pass runs per table, immediately after that
table's own columns; a reference is emitted exactly when the referenced
(table, column) resolves in the system's metadata AND the referenced column
is already in the node cache at that moment, so the same system with the
referenced table listed first does produce the edge while the forward order
does not, and unresolved or not-yet-materialized references are skipped
without error. -/
theorem C10_fk_pass_per_table :
    referencesEmitted (buildSourceMetadataEnhanced [c10SysBackward] {}) = [("T1.A", "T2.B")] ∧
    specResolvedReferences c10SysBackward = [("T1.A", "T2.B")] ∧
    referencesEmitted (buildSourceMetadataEnhanced [c10SysForward] {}) = [] := by decide
